import Mathlib

/-!
Shallow embedding of the layman overlay-catalog core
(`src/layman/dbbase.py` and `src/layman/api.py`).

Python runtime behaviour is made explicit:
* exceptions become `Except PyError`;
* `dict` becomes an association list with overwrite-on-assignment
  semantics (`pyDictSet` / `pyDictGet` / `pyDictRemove`);
* external collaborators that are part of the repository but not under
  `src/` (the `Overlay` entity of `layman/overlays/overlay.py`, the `DB`
  and `RemoteDB` classes of `layman/db.py`, and the sync adapter) are
  modelled from the spec, as noted on each definition.
-/

/-- Decidable equality for `Except`, so that concrete runs of the embedded
fallible code can be checked by `decide`. -/
instance {ε α : Type} [DecidableEq ε] [DecidableEq α] : DecidableEq (Except ε α) := by
  intro a b
  cases a <;> cases b
  case error.error e e' =>
    exact if h : e = e' then .isTrue (by rw [h]) else .isFalse (by simp [h])
  case error.ok e x => exact .isFalse (by simp)
  case ok.error x e => exact .isFalse (by simp)
  case ok.ok x y =>
    exact if h : x = y then .isTrue (by rw [h]) else .isFalse (by simp [h])

namespace Layman

/-- Python exception values that the embedded code can raise.  `nameError n`
stands for a `NameError` on the unbound name `n`; the remaining constructors
mirror the exception classes that appear in the source. -/
inductive PyError where
  | nameError (n : String)
  | keyError (k : String)
  | indexError
  | valueError
  | notImplemented
  | brokenCatalog (origin : String) (line : Nat) (column : Nat) (hint : Option String)
  | unknownOverlay (name : String)
  | generic (msg : String)
deriving DecidableEq

/-- Modelled from the spec (§3 Data Model): one source endpoint of an overlay.
The attribute names `type` and `src` are the ones the code in `src/` reads
(`e.src`, `overlay.sources[0].type`); the `Source` class itself lives in
`layman/overlays/*`, which is not under `src/`. -/
structure Source where
  type : String
  src : String
deriving DecidableEq

/-- Modelled from the spec (§3 Data Model): the overlay entity
(`layman/overlays/overlay.py`, not under `src/`).  The fields are exactly the
attributes the code in `src/` reads; `official` and `supported` hold the values
of the externally-defined policy predicates `is_official()` / `is_supported()`. -/
structure Overlay where
  name : String
  description : String
  homepage : String
  owner_name : String
  owner_email : String
  priority : Int
  quality : String
  status : String
  sources : List Source
  official : Bool
  supported : Bool
deriving DecidableEq

/-- Python `d[k] = v` on a dict modelled as an association list: overwrite the
existing binding in place, otherwise append. -/
def pyDictSet {α : Type} : List (String × α) → String → α → List (String × α)
  | [], k, v => [(k, v)]
  | (k', v') :: rest, k, v =>
    if k' = k then (k, v) :: rest else (k', v') :: pyDictSet rest k v

/-- Python `d.get(k)` / `d[k]` lookup on a dict modelled as an association
list. -/
def pyDictGet {α : Type} : List (String × α) → String → Option α
  | [], _ => none
  | (k', v') :: rest, k => if k' = k then some v' else pyDictGet rest k

/-- Python `del d[k]`: drop the binding for `k`, if any. -/
def pyDictRemove {α : Type} : List (String × α) → String → List (String × α)
  | [], _ => []
  | (k', v') :: rest, k => if k' = k then rest else (k', v') :: pyDictRemove rest k

/-- Python `d.keys()`. -/
def pyDictKeys {α : Type} (m : List (String × α)) : List String :=
  m.map (·.1)

/-- Python `set(l)` for strings: deduplicate (iteration order of a Python set
is unspecified; only membership and cardinality of the result are relied on by
the code). -/
def pySet : List String → List String
  | [] => []
  | k :: ks =>
    let r := pySet ks
    if k ∈ r then r else k :: r

/-- Embeds `UnknownOverlayMessage` (dbbase.py:46). -/
def unknownOverlayMessage (ovl : String) : String :=
  "Overlay \"" ++ ovl ++ "\" does not exist."

/-- Embeds `UnknownOverlayException.__init__` (dbbase.py:49-52).  The body
evaluates `UnknownOverlayMessage(repo_name)` but discards the result, and then
passes the *unbound* global name `message` to `super().__init__`; evaluating
that name raises `NameError("global name 'message' is not defined")`, so
constructing the exception never yields an `unknownOverlay` value. -/
def unknownOverlayExceptionNew (repo_name : String) : PyError :=
  let _ := unknownOverlayMessage repo_name
  .nameError "message"

/-- Embeds the `DbBase` overlay mapping (`self.overlays`, dbbase.py:91). -/
structure DbBase where
  overlays : List (String × Overlay)
deriving DecidableEq

/-- Embeds `DbBase.select` (dbbase.py:223-235): membership test on
`self.overlays.keys()`, raising `UnknownOverlayException(overlay)` when absent
(which, see `unknownOverlayExceptionNew`, actually raises a `NameError`). -/
def DbBase.select (db : DbBase) (overlay : String) : Except PyError Overlay :=
  match pyDictGet db.overlays overlay with
  | none => .error (unknownOverlayExceptionNew overlay)
  | some o => .ok o

/-- An XML document handed to `DbBase.read`, after the Overlay-entity layer.
`wellFormed ovls` stands for a parseable document whose `overlay`/`repo`
elements construct the given overlay values (the `Overlay(xml=...)`
constructor is in `layman/overlays/overlay.py`, not under `src/`, and is
modelled from the spec as total on well-formed elements); `malformed` carries
the expat error position (`lineno`, `offset`). -/
inductive Document where
  | wellFormed (ovls : List Overlay)
  | malformed (lineno : Nat) (offset : Nat)
deriving DecidableEq

/-- The merge loop of `DbBase.read` (dbbase.py:155-159):
`self.overlays[ovl.name] = ovl` for each parsed overlay, in document order. -/
def mergeOverlays (m : List (String × Overlay)) (l : List Overlay) :
    List (String × Overlay) :=
  l.foldl (fun acc o => pyDictSet acc o.name o) m

/-- Embeds `DbBase.read` (dbbase.py:134-160).  `hintComp` is the computation
`self._broken_catalog_hint()`: on the base class it raises
`NotImplementedError` (dbbase.py:128-131, i.e. `.error .notImplemented`);
the concrete catalog classes `DB`/`RemoteDB` (in `layman/db.py`, not under
`src/`) override it — modelled from the spec as returning an optional hint
string (`.ok h`).  On a malformed document the hint is computed first (it is
an argument of the `BrokenOverlayCatalog` constructor) and then the
constructed error carries origin, the expat line, the column `offset + 1`
and the hint (dbbase.py:60-69); `self.overlays` is not touched.  On a
well-formed document every parsed overlay is merged by name. -/
def DbBase.read (db : DbBase) (doc : Document) (origin : String)
    (hintComp : Except PyError (Option String)) : DbBase × Option PyError :=
  match doc with
  | .malformed lineno offset =>
    match hintComp with
    | .error e => (db, some e)
    | .ok hint => (db, some (.brokenCatalog origin lineno (offset + 1) hint))
  | .wellFormed ovls => (⟨mergeOverlays db.overlays ovls⟩, none)

/-- Embeds `DbBase.write` (dbbase.py:190-221) composed with the Overlay
serializer: the document written holds `e.to_xml()` for every `e` in
`self.overlays.values()`.  `Overlay.to_xml` lives in
`layman/overlays/overlay.py` (not under `src/`) and is modelled from the spec
(§4.2: `toCatalogRecord` is the inverse of construction), so the emitted
document simply carries the overlay values themselves. -/
def DbBase.write (db : DbBase) : Document :=
  .wellFormed (db.overlays.map (·.2))

/-- The key iteration of `DbBase.__eq__` (dbbase.py:102-106):
`set(self.overlays.keys() + other.overlays.keys())`, then for each key compare
`self.overlays[key] != other.overlays[key]` — a key present on only one side
raises `KeyError`. -/
def dbEqGo (a b : DbBase) : List String → Except PyError Bool
  | [] => .ok true
  | k :: ks =>
    match pyDictGet a.overlays k with
    | none => .error (.keyError k)
    | some va =>
      match pyDictGet b.overlays k with
      | none => .error (.keyError k)
      | some vb => if va ≠ vb then .ok false else dbEqGo a b ks

/-- Embeds `DbBase.__eq__` (dbbase.py:102-106). -/
def dbEq (a b : DbBase) : Except PyError Bool :=
  dbEqGo a b (pySet (pyDictKeys a.overlays ++ pyDictKeys b.overlays))

/-- An entry appended to the `warnings` list inside `LaymanAPI.sync`.
`renamed id message` is the 2-tuple `(id, message)` of api.py:282-284.
`sourceDrift` is the entry of api.py:296-312: note that in the source the `%`
interpolation operator between the format string and the dictionary is
missing, so the appended value is the 3-tuple
`(id, format_string, {'repo_name':…, 'current_src':…, 'candidates':…,
'plural':…})`; the constructor carries the format string and the four
dictionary values. -/
inductive SyncWarning where
  | renamed (id : String) (message : String)
  | sourceDrift (id : String) (fmt : String)
      (repo_name current_src candidates plural : String)
deriving DecidableEq

/-- The argument of a batch operation before normalization: a Python string, a
Python list of strings, or a value of any other type (e.g. an integer). -/
inductive ReposArg where
  | str (s : String)
  | list (l : List String)
  | other
deriving DecidableEq

/-- Embeds `LaymanAPI._check_repo_type` (api.py:96-107).  A string is wrapped
into a one-element list and a list is passed through.  For any other type the
code runs `self._error(...)` — but `_check_repo_type` is a `@staticmethod`, so
the name `self` is unbound and evaluating it raises
`NameError("global name 'self' is not defined")`; the error is never recorded
and the empty list is never returned. -/
def check_repo_type : ReposArg → Except PyError (List String)
  | .str s => .ok [s]
  | .list l => .ok l
  | .other => .error (.nameError "self")

/-- Modelled from the spec (§2, §6): outcomes of the external collaborators
that `src/layman/api.py` calls but whose code (`layman/db.py`, the sync
adapter, the Overlay rendering) is not under `src/`.  `deleteFails id` /
`addFails id` give the error message when `DB.delete` / `DB.add` raise for
that id (persistence failure), `none` when they succeed; `syncFails id` is the
sync adapter outcome for `DB.sync(id, quiet)`; `overlayStr` is
`Overlay.__str__` (the full human-readable rendering, §4.2). -/
structure Env where
  deleteFails : String → Option String
  addFails : String → Option String
  syncFails : String → Option String
  overlayStr : Overlay → String

/-- Embeds the mutable state of a `LaymanAPI` instance (api.py:57-69):
the installed and available catalogs, the cached sorted id lists, the error
queue `_error_messages` and the last sync record `sync_results`
(`none` models its initial value `[]`, before any assignment of the
`(success, warnings, fatals)` triple). -/
structure ApiState where
  installedDb : DbBase
  availableDb : DbBase
  installedIds : List String
  availableIds : List String
  errorMessages : List (String × String)
  syncResults : Option (List (String × String) × List SyncWarning × List (String × String))
deriving DecidableEq

/-- Embeds `LaymanAPI._error` (api.py:377-385): appends the pair
`("Error: %d," % num, message)` to `self._error_messages`. -/
def addError (st : ApiState) (num : Int) (message : String) : ApiState :=
  { st with errorMessages :=
      st.errorMessages ++ [("Error: " ++ toString num ++ ",", message)] }

/-- Embeds `LaymanAPI.is_repo` (api.py:76-83). -/
def is_repo (st : ApiState) (id : String) : Bool :=
  st.availableIds.contains id

/-- Embeds `LaymanAPI.is_installed` (api.py:86-93). -/
def is_installed (st : ApiState) (id : String) : Bool :=
  st.installedIds.contains id

/-- The `UNKNOWN_REPO_ID` message template (api.py:31-32) applied to an id. -/
def unknownRepoIdMsg (id : String) : String :=
  "Repo ID '" ++ id ++ "' is not listed in the current available overlays list"

/-- Insert a string into an already sorted list (ascending). -/
def insertSorted (s : String) : List String → List String
  | [] => [s]
  | x :: xs => if s < x then s :: x :: xs else x :: insertSorted s xs

/-- Python `sorted` on a list of strings (insertion sort). -/
def sortStrings (l : List String) : List String :=
  l.foldr insertSorted []

/-- Embeds `LaymanAPI.get_installed(reload=True)` (api.py:363-368) as used
inside the batch loops.  Modelled from the spec for the part outside `src/`:
`DB(config)` re-reads the persisted installed store (`layman/db.py`), and
since `DB.add`/`DB.delete` persist immediately (§4.3) the re-read yields the
current mapping, so only the cached sorted id list is recomputed. -/
def getInstalledReload (st : ApiState) : ApiState :=
  { st with installedIds := sortStrings (pyDictKeys st.installedDb.overlays) }

/-- Python `str(e)` for the embedded exception values, as interpolated into
the error-queue messages. -/
def errStr : PyError → String
  | .nameError n => "global name '" ++ n ++ "' is not defined"
  | .keyError k => k
  | .indexError => "list index out of range"
  | .valueError => "too many values to unpack"
  | .notImplemented => "Method not implemented"
  | .brokenCatalog o l c _ =>
    "XML parsing failed for \"" ++ o ++ "\" (line " ++ toString l ++
      ", column " ++ toString c ++ ")"
  | .unknownOverlay n => unknownOverlayMessage n
  | .generic m => m

/-- The `try:` body of `LaymanAPI.delete_repos` (api.py:128-130):
`self._installed_db.delete(self._installed_db.select(id))`.  The `select` call
can raise (caught by the broad `except Exception`).  `DB.delete` is in
`layman/db.py` (not under `src/`): modelled from the spec (§4.3, §7) as
removing the overlay from the installed mapping and persisting, or raising
the failure injected by `env.deleteFails`. -/
def deleteTryBody (env : Env) (st : ApiState) (id : String) :
    Except PyError ApiState :=
  match st.installedDb.select id with
  | .error e => .error e
  | .ok _ =>
    match env.deleteFails id with
    | some e => .error (.generic e)
    | none => .ok { st with installedDb := ⟨pyDictRemove st.installedDb.overlays id⟩ }

/-- The per-id loop of `LaymanAPI.delete_repos` (api.py:120-135), returning
the final state and the `results` list.  Note the `break` statements: a
not-installed id appends `True` and *breaks*, an id unknown to the available
catalog records an error, appends `False` and *breaks*; only the
delete-attempt path continues with the next id (after
`get_installed(reload=True)`). -/
def delete_repos_loop (env : Env) : List String → ApiState → ApiState × List Bool
  | [], st => (st, [])
  | id :: rest, st =>
    if ¬ is_installed st id then
      (st, [true])
    else if ¬ is_repo st id then
      (addError st 1 (unknownRepoIdMsg id), [false])
    else
      let step : ApiState × Bool :=
        match deleteTryBody env st id with
        | .ok st' => (st', true)
        | .error e =>
          (addError st (-2)
            ("Failed to disable repository '" ++ id ++ "':\n" ++ errStr e), false)
      let st2 := getInstalledReload step.1
      let next := delete_repos_loop env rest st2
      (next.1, step.2 :: next.2)

/-- Embeds `LaymanAPI.delete_repos` (api.py:110-138).  Returns the final
state, the internal per-id `results` list, and the overall boolean
(`False` iff `False in results`). -/
def delete_repos (env : Env) (st : ApiState) (arg : ReposArg) :
    Except PyError (ApiState × List Bool × Bool) :=
  match check_repo_type arg with
  | .error e => .error e
  | .ok repos =>
    let r := delete_repos_loop env repos st
    .ok (r.1, r.2, ! r.2.contains false)

/-- The `try:` body of `LaymanAPI.add_repos` (api.py:159-161):
`self._installed_db.add(self._available_db.select(id), quiet=True)`.
`DB.add` is in `layman/db.py` (not under `src/`): modelled from the spec
(§4.3) as copying the available definition into the installed mapping and
persisting, or raising the failure injected by `env.addFails`. -/
def addTryBody (env : Env) (st : ApiState) (id : String) :
    Except PyError ApiState :=
  match st.availableDb.select id with
  | .error e => .error e
  | .ok o =>
    match env.addFails id with
    | some e => .error (.generic e)
    | none => .ok { st with installedDb := ⟨pyDictSet st.installedDb.overlays o.name o⟩ }

/-- The per-id loop of `LaymanAPI.add_repos` (api.py:151-166).  Mirrors
`delete_repos_loop`: an already-installed id appends `True` and *breaks*, an
id unknown to the available catalog records an error, appends `False` and
*breaks*. -/
def add_repos_loop (env : Env) : List String → ApiState → ApiState × List Bool
  | [], st => (st, [])
  | id :: rest, st =>
    if is_installed st id then
      (st, [true])
    else if ¬ is_repo st id then
      (addError st 1 (unknownRepoIdMsg id), [false])
    else
      let step : ApiState × Bool :=
        match addTryBody env st id with
        | .ok st' => (st', true)
        | .error e =>
          (addError st (-2)
            ("Failed to enable repository '" ++ id ++ "' : " ++ errStr e), false)
      let st2 := getInstalledReload step.1
      let next := add_repos_loop env rest st2
      (next.1, step.2 :: next.2)

/-- Embeds `LaymanAPI.add_repos` (api.py:141-169). -/
def add_repos (env : Env) (st : ApiState) (arg : ReposArg) :
    Except PyError (ApiState × List Bool × Bool) :=
  match check_repo_type arg with
  | .error e => .error e
  | .ok repos =>
    let r := add_repos_loop env repos st
    .ok (r.1, r.2, ! r.2.contains false)

/-- A value stored in the result dict of `LaymanAPI.get_all_info`
(api.py:172-226): either the placeholder tuple `('', False, False)` recorded
for an unknown id, or the dictionary of overlay fields. -/
inductive InfoValue where
  | placeholder
  | record (name owner_name owner_email homepage description : String)
      (src_uris : List String) (src_type : String) (priority : Int)
      (quality status : String) (official supported : Bool)
deriving DecidableEq

/-- The per-id loop of `LaymanAPI.get_all_info` (api.py:201-224).  When
`is_repo` is false an error is queued and the placeholder stored, but the
`try: ... select(id)` still runs; its `except UnknownOverlayException` handler
is dead code (see `unknownOverlayExceptionNew`: the lookup failure raises a
`NameError`, which this handler does not catch and which therefore propagates
past `get_all_info`).  On success the field dictionary is stored
(`src_type = overlay.sources[0].type` raises `IndexError` on an overlay with
no sources). -/
def get_all_info_loop :
    List String → ApiState → List (String × InfoValue) →
    Except PyError (ApiState × List (String × InfoValue))
  | [], st, res => .ok (st, res)
  | id :: rest, st, res =>
    let pre : ApiState × List (String × InfoValue) :=
      if ¬ is_repo st id then
        (addError st 1 (unknownRepoIdMsg id), pyDictSet res id .placeholder)
      else (st, res)
    match pre.1.availableDb.select id with
    | .error (.unknownOverlay n) =>
      get_all_info_loop rest
        (addError pre.1 2 ("Error: " ++ unknownOverlayMessage n))
        (pyDictSet pre.2 id .placeholder)
    | .error e => .error e
    | .ok o =>
      match o.sources.head? with
      | none => .error .indexError
      | some s0 =>
        get_all_info_loop rest pre.1
          (pyDictSet pre.2 id
            (.record o.name o.owner_name o.owner_email o.homepage o.description
              (o.sources.map (·.src)) s0.type o.priority o.quality o.status
              o.official o.supported))

/-- Embeds `LaymanAPI.get_all_info` (api.py:172-226). -/
def get_all_info (st : ApiState) (arg : ReposArg) :
    Except PyError (ApiState × List (String × InfoValue)) :=
  match check_repo_type arg with
  | .error e => .error e
  | .ok repos => get_all_info_loop repos st []

/-- The per-id loop of `LaymanAPI.get_info_str` (api.py:241-255); same shape
as `get_all_info_loop`, the stored value being the tuple
`(overlay.__str__(), overlay.is_official(), overlay.is_supported())`. -/
def get_info_str_loop (env : Env) :
    List String → ApiState → List (String × (String × Bool × Bool)) →
    Except PyError (ApiState × List (String × (String × Bool × Bool)))
  | [], st, res => .ok (st, res)
  | id :: rest, st, res =>
    let pre : ApiState × List (String × (String × Bool × Bool)) :=
      if ¬ is_repo st id then
        (addError st 1 (unknownRepoIdMsg id), pyDictSet res id ("", false, false))
      else (st, res)
    match pre.1.availableDb.select id with
    | .error (.unknownOverlay n) =>
      get_info_str_loop env rest
        (addError pre.1 2 ("Error: " ++ unknownOverlayMessage n))
        (pyDictSet pre.2 id ("", false, false))
    | .error e => .error e
    | .ok o =>
      get_info_str_loop env rest pre.1
        (pyDictSet pre.2 id (env.overlayStr o, o.official, o.supported))

/-- Embeds `LaymanAPI.get_info_str` (api.py:229-257). -/
def get_info_str (env : Env) (st : ApiState) (arg : ReposArg) :
    Except PyError (ApiState × List (String × (String × Bool × Bool))) :=
  match check_repo_type arg with
  | .error e => .error e
  | .ok repos => get_info_str_loop env repos st []

/-- The warning message of api.py:282-283 for an overlay missing from the
remote lists. -/
def renamedMsg (id : String) : String :=
  "Overlay \"" ++ id ++ "\" could not be found in the remote lists.\n" ++
    "Please check if it has been renamed and re-add if necessary."

/-- The (never `%`-interpolated) format string of the source-drift warning
(api.py:297-307). -/
def driftFormatStr : String :=
  "The source of the overlay \"%(repo_name)s\" seems to have changed.\n" ++
    "You currently sync from\n\n  %(current_src)s\n\n" ++
    "while the remote lists report\n\n%(candidates)s\n\n" ++
    "as correct location%(plural)s.\n" ++
    "Please consider removing and re-adding the overlay."

/-- The `plural`/`candidates` computation of api.py:289-294: a single
candidate yields `('', '  %s' % candidate)`, several yield
`('s', newline-joined '  %d. %s' lines numbered from 1)`. -/
def mkCandidates (srcs : List String) : String × String :=
  if srcs.length = 1 then
    ("", "  " ++ srcs.headD "")
  else
    ("s", String.intercalate "\n"
      (srcs.enum.map (fun p => "  " ++ toString (p.1 + 1) ++ ". " ++ p.2)))

/-- The available-catalog step of one `sync` iteration (api.py:279-312):
select the available definition — the `except UnknownOverlayException` branch
(append a `renamed` warning) is dead code because the failed lookup raises
`NameError` instead, which propagates — and otherwise (the `else:` clause)
compare `odb.sources[0].src` against the set of available source uris,
appending a `sourceDrift` 3-tuple when it is absent.  (`if ordb and odb` is
object truthiness, always true for overlay instances.) -/
def syncAvailStep (st : ApiState) (id : String) (odb : Overlay)
    (warn : List SyncWarning) : Except PyError (List SyncWarning) :=
  match st.availableDb.select id with
  | .error (.unknownOverlay _) => .ok (warn ++ [.renamed id (renamedMsg id)])
  | .error e => .error e
  | .ok ordb =>
    match odb.sources.head? with
    | none => .error .indexError
    | some s0 =>
      let current_src := s0.src
      let available_srcs := pySet (ordb.sources.map (·.src))
      if current_src ∈ available_srcs then .ok warn
      else
        let pc := mkCandidates available_srcs
        .ok (warn ++ [.sourceDrift id driftFormatStr id current_src pc.2 pc.1])

/-- The per-id loop of `LaymanAPI.sync` (api.py:272-320).  The installed
lookup's `except UnknownOverlayException` handler (queue an error, `continue`)
is dead code — the failed lookup raises `NameError`, which propagates past
`sync` — and the adapter call `self._installed_db.sync(id, quiet)` is guarded
by a broad `except Exception` that turns any failure into a `fatals` entry. -/
def sync_loop (env : Env) :
    List String → ApiState → List (String × String) → List SyncWarning →
    List (String × String) →
    Except PyError
      (ApiState × List (String × String) × List SyncWarning × List (String × String))
  | [], st, succ, warn, fat => .ok (st, succ, warn, fat)
  | id :: rest, st, succ, warn, fat =>
    match st.installedDb.select id with
    | .error (.unknownOverlay n) =>
      sync_loop env rest
        (addError st 1
          ("Sync(), failed to select " ++ id ++ " overlay.  Original error was: "
            ++ unknownOverlayMessage n))
        succ warn fat
    | .error e => .error e
    | .ok odb =>
      match syncAvailStep st id odb warn with
      | .error e => .error e
      | .ok warn1 =>
        match env.syncFails id with
        | none =>
          sync_loop env rest st
            (succ ++ [(id, "Successfully synchronized overlay \"" ++ id ++ "\".")])
            warn1 fat
        | some err =>
          sync_loop env rest st succ warn1
            (fat ++ [(id, "Failed to sync overlay \"" ++ id ++ "\".\nError was: " ++ err)])

/-- The warnings-printing loop of api.py:328-331: `for id, result in
warnings:` unpacks each entry into two names.  A `sourceDrift` entry is a
3-tuple, so unpacking it raises `ValueError` ("too many values to unpack");
`renamed` entries are 2-tuples and print fine. -/
def warnUnpack : List SyncWarning → Except PyError Unit
  | [] => .ok ()
  | .renamed _ _ :: rest => warnUnpack rest
  | .sourceDrift _ _ _ _ _ _ :: _ => .error .valueError

/-- The observable outcome of a `LaymanAPI.sync` call that returned (rather
than raised): the final instance state, the boolean return value, and the
`success` / `warnings` / `fatals` classification lists built by the loop. -/
structure SyncOutcome where
  state : ApiState
  result : Bool
  success : List (String × String)
  warnings : List SyncWarning
  fatals : List (String × String)
deriving DecidableEq

/-- Embeds `LaymanAPI.sync` (api.py:260-341).  Output shape of the source:
when `output_results` is set the success block prints, then the warnings block
runs (`warnUnpack`), then `if fatals: ...; return False` returns *before*
`self.sync_results` is assigned; only the fall-through (no fatals, or
`output_results` unset) stores the classification and returns `True`. -/
def sync (env : Env) (st : ApiState) (arg : ReposArg) (output_results : Bool) :
    Except PyError SyncOutcome :=
  match check_repo_type arg with
  | .error e => .error e
  | .ok repos =>
    match sync_loop env repos st [] [] [] with
    | .error e => .error e
    | .ok (st1, succ, warn, fat) =>
      if output_results then
        match warnUnpack warn with
        | .error e => .error e
        | .ok _ =>
          match fat with
          | _ :: _ => .ok ⟨st1, false, succ, warn, fat⟩
          | [] =>
            .ok ⟨{ st1 with syncResults := some (succ, warn, fat) }, true,
              succ, warn, fat⟩
      else
        .ok ⟨{ st1 with syncResults := some (succ, warn, fat) }, true,
          succ, warn, fat⟩

/-! Concrete fixtures used by the witnesses and counterexamples, following
the `global-overlays.xml` test data quoted in the dbbase.py doctests. -/

/-- The single source of the `wrobel-stable` overlay (dbbase.py doctest). -/
def srcStable : Source :=
  { type := "rsync", src := "rsync://gunnarwrobel.de/wrobel-stable" }

/-- The `wrobel-stable` overlay of the dbbase.py doctests. -/
def ovlStable : Overlay :=
  { name := "wrobel-stable"
    description := "A collection of ebuilds from Gunnar Wrobel."
    homepage := ""
    owner_name := "nobody"
    owner_email := "nobody@gentoo.org"
    priority := 50
    quality := "experimental"
    status := ""
    sources := [srcStable]
    official := false
    supported := false }

/-- The `wrobel` overlay of the dbbase.py doctests. -/
def ovlWrobel : Overlay :=
  { name := "wrobel"
    description := "Test"
    homepage := ""
    owner_name := "nobody"
    owner_email := "nobody@gentoo.org"
    priority := 10
    quality := "experimental"
    status := ""
    sources := [{ type := "svn", src := "https://overlays.gentoo.org/svn/dev/wrobel" }]
    official := false
    supported := false }

/-- An overlay present only in the installed catalog. -/
def ovlLocal : Overlay :=
  { name := "local-only"
    description := "installed but no longer advertised"
    homepage := ""
    owner_name := "nobody"
    owner_email := "nobody@gentoo.org"
    priority := 50
    quality := "experimental"
    status := ""
    sources := [{ type := "git", src := "git://example.org/local-only" }]
    official := false
    supported := false }

/-- A consistent API state: `wrobel-stable` installed; `wrobel` and
`wrobel-stable` available. -/
def stBase : ApiState :=
  { installedDb := ⟨[("wrobel-stable", ovlStable)]⟩
    availableDb := ⟨[("wrobel", ovlWrobel), ("wrobel-stable", ovlStable)]⟩
    installedIds := ["wrobel-stable"]
    availableIds := ["wrobel", "wrobel-stable"]
    errorMessages := []
    syncResults := none }

/-- An API state whose only installed overlay is absent from the available
catalog. -/
def stLocal : ApiState :=
  { installedDb := ⟨[("local-only", ovlLocal)]⟩
    availableDb := ⟨[("wrobel", ovlWrobel)]⟩
    installedIds := ["local-only"]
    availableIds := ["wrobel"]
    errorMessages := []
    syncResults := none }

/-- An environment in which every external collaborator succeeds. -/
def trivEnv : Env :=
  { deleteFails := fun _ => none
    addFails := fun _ => none
    syncFails := fun _ => none
    overlayStr := fun o => o.name }

/-- An environment in which the sync adapter fails for every overlay. -/
def syncFailEnv : Env :=
  { deleteFails := fun _ => none
    addFails := fun _ => none
    syncFails := fun _ => some "connection refused"
    overlayStr := fun o => o.name }

/-- The well-formedness invariant that any catalog built by the documented
construction paths satisfies: keys are pairwise distinct, and each overlay is
stored under its own name (`self.overlays[ovl.name] = ovl`, dbbase.py:159). -/
def wfCatalog (db : DbBase) : Prop :=
  (pyDictKeys db.overlays).Nodup ∧ ∀ p ∈ db.overlays, p.2.name = p.1

instance (db : DbBase) : Decidable (wfCatalog db) := by
  unfold wfCatalog
  infer_instance

/-! Helper lemmas about the dict model and the catalog operations. -/

/-- Assigning a fresh key appends the binding. -/
theorem pyDictSet_fresh {α : Type} :
    ∀ (m : List (String × α)) (k : String) (v : α),
      k ∉ m.map (·.1) → pyDictSet m k v = m ++ [(k, v)]
  | [], _, _, _ => rfl
  | (k', v') :: rest, k, v, h => by
    simp only [List.map_cons, List.mem_cons] at h
    push_neg at h
    simp only [pyDictSet, if_neg (Ne.symm h.1), List.cons_append,
      pyDictSet_fresh rest k v h.2]

/-- Looking up the key just assigned returns the assigned value. -/
theorem pyDictGet_set_self {α : Type} :
    ∀ (m : List (String × α)) (k : String) (v : α),
      pyDictGet (pyDictSet m k v) k = some v
  | [], k, v => by simp [pyDictSet, pyDictGet]
  | (k', v') :: rest, k, v => by
    by_cases h : k' = k
    · simp [pyDictSet, pyDictGet, h]
    · simp [pyDictSet, pyDictGet, h, pyDictGet_set_self rest k v]

/-- Assigning under one key does not change the lookup of another. -/
theorem pyDictGet_set_ne {α : Type} :
    ∀ (m : List (String × α)) (k k' : String) (v : α), k ≠ k' →
      pyDictGet (pyDictSet m k v) k' = pyDictGet m k'
  | [], _, _, _, hne => by simp [pyDictSet, pyDictGet, hne]
  | (k0, v0) :: rest, k, k', v, hne => by
    simp only [pyDictSet]
    by_cases hk : k0 = k
    · subst hk
      simp [pyDictGet, hne]
    · simp only [if_neg hk, pyDictGet]
      by_cases hk' : k0 = k'
      · simp [hk']
      · simp [hk', pyDictGet_set_ne rest k k' v hne]

/-- Assignment never removes a key that was present. -/
theorem pyDictGet_set_isSome {α : Type} (m : List (String × α)) (k k' : String)
    (v : α) (h : (pyDictGet m k').isSome) :
    (pyDictGet (pyDictSet m k v) k').isSome := by
  by_cases hk : k = k'
  · subst hk
    rw [pyDictGet_set_self]
    rfl
  · rw [pyDictGet_set_ne m k k' v hk]
    exact h

/-- Merging preserves keys that were already present. -/
theorem mergeOverlays_isSome :
    ∀ (l : List Overlay) (acc : List (String × Overlay)) (k : String),
      (pyDictGet acc k).isSome → (pyDictGet (mergeOverlays acc l) k).isSome
  | [], _, _, h => h
  | o :: rest, acc, k, h =>
    mergeOverlays_isSome rest _ k (pyDictGet_set_isSome acc o.name k o h)

/-- Every overlay of a merged document is present in the mapping afterwards. -/
theorem mergeOverlays_mem_isSome :
    ∀ (l : List Overlay) (acc : List (String × Overlay)) (o : Overlay),
      o ∈ l → (pyDictGet (mergeOverlays acc l) o.name).isSome
  | o' :: rest, acc, o, ho => by
    rcases List.mem_cons.mp ho with rfl | h
    · exact mergeOverlays_isSome rest _ _ (by rw [pyDictGet_set_self]; rfl)
    · exact mergeOverlays_mem_isSome rest _ o h

/-- Merging a list of overlays with pairwise-distinct fresh names appends
their bindings in order. -/
theorem mergeOverlays_fresh :
    ∀ (l : List Overlay) (acc : List (String × Overlay)),
      (∀ o ∈ l, o.name ∉ acc.map (·.1)) → (l.map Overlay.name).Nodup →
      mergeOverlays acc l = acc ++ l.map (fun o => (o.name, o))
  | [], acc, _, _ => by simp [mergeOverlays]
  | o :: rest, acc, hfresh, hnodup => by
    have hstep : pyDictSet acc o.name o = acc ++ [(o.name, o)] :=
      pyDictSet_fresh acc o.name o (hfresh o (List.mem_cons_self o rest))
    have hnd : o.name ∉ rest.map Overlay.name ∧ (rest.map Overlay.name).Nodup := by
      rw [List.map_cons, List.nodup_cons] at hnodup
      exact hnodup
    have hfresh' : ∀ o' ∈ rest, o'.name ∉ (acc ++ [(o.name, o)]).map (·.1) := by
      intro o' ho'
      simp only [List.map_append, List.mem_append, List.map_cons, List.map_nil,
        List.mem_singleton]
      rintro (hmem | hmem)
      · exact hfresh o' (List.mem_cons_of_mem _ ho') hmem
      · exact hnd.1 (hmem ▸ List.mem_map_of_mem Overlay.name ho')
    have hrec := mergeOverlays_fresh rest (acc ++ [(o.name, o)]) hfresh' hnd.2
    calc mergeOverlays acc (o :: rest)
        = mergeOverlays (pyDictSet acc o.name o) rest := rfl
      _ = acc ++ (o.name, o) :: rest.map (fun o => (o.name, o)) := by
          rw [hstep, hrec, List.append_assoc, List.singleton_append]
      _ = acc ++ (o :: rest).map (fun o => (o.name, o)) := by simp

/-- A key of the mapping always resolves. -/
theorem pyDictGet_mem_keys {α : Type} :
    ∀ (m : List (String × α)) (k : String),
      k ∈ m.map (·.1) → ∃ v, pyDictGet m k = some v
  | [], k, h => by simp at h
  | (k', v') :: rest, k, h => by
    by_cases hk : k' = k
    · exact ⟨v', by simp [pyDictGet, hk]⟩
    · rw [List.map_cons, List.mem_cons] at h
      rcases h with hh | hh
      · exact absurd hh.symm hk
      · obtain ⟨v, hv⟩ := pyDictGet_mem_keys rest k hh
        exact ⟨v, by simp [pyDictGet, hk, hv]⟩

/-- `pySet` only keeps elements of its input. -/
theorem pySet_subset : ∀ (l : List String), ∀ x ∈ pySet l, x ∈ l
  | k :: ks, x, hx => by
    simp only [pySet] at hx
    split at hx
    · exact List.mem_cons_of_mem k (pySet_subset ks x hx)
    · rcases List.mem_cons.mp hx with rfl | h
      · exact List.mem_cons_self x ks
      · exact List.mem_cons_of_mem k (pySet_subset ks x h)

/-- `DbBase.__eq__` applied to one catalog and itself succeeds and answers
`true`, provided every iterated key is a key of the mapping. -/
theorem dbEqGo_self (db : DbBase) :
    ∀ ks : List String, (∀ k ∈ ks, k ∈ pyDictKeys db.overlays) →
      dbEqGo db db ks = .ok true
  | [], _ => rfl
  | k :: ks, h => by
    obtain ⟨v, hv⟩ :=
      pyDictGet_mem_keys db.overlays k (h k (List.mem_cons_self k ks))
    simp only [dbEqGo, hv]
    rw [if_neg (by simp)]
    exact dbEqGo_self db ks (fun k' hk' => h k' (List.mem_cons_of_mem k hk'))

/-- Reading back the document written from a well-formed catalog rebuilds the
very same mapping. -/
theorem read_write_overlays (db : DbBase) (hwf : wfCatalog db) :
    mergeOverlays [] (db.overlays.map (·.2)) = db.overlays := by
  have hnames : (db.overlays.map (·.2)).map Overlay.name = pyDictKeys db.overlays := by
    unfold pyDictKeys
    rw [List.map_map]
    exact List.map_congr_left (fun p hp => hwf.2 p hp)
  rw [mergeOverlays_fresh _ _ (by simp) (by rw [hnames]; exact hwf.1)]
  rw [List.nil_append, List.map_map]
  calc db.overlays.map (fun p => ((p.2).name, p.2))
      = db.overlays.map id :=
        List.map_congr_left (fun p hp => by rw [hwf.2 p hp]; rfl)
    _ = db.overlays := List.map_id db.overlays

/-- `sync`'s per-id loop never assigns `self.sync_results`: whatever state it
returns carries the record the call started with. -/
theorem sync_loop_syncResults (env : Env) :
    ∀ (repos : List String) (st : ApiState) (succ : List (String × String))
      (warn : List SyncWarning) (fat : List (String × String))
      (st' : ApiState) (s : List (String × String)) (w : List SyncWarning)
      (f : List (String × String)),
      sync_loop env repos st succ warn fat = .ok (st', s, w, f) →
      st'.syncResults = st.syncResults
  | [], st, succ, warn, fat, st', s, w, f, h => by
    simp only [sync_loop, Except.ok.injEq, Prod.mk.injEq] at h
    obtain ⟨rfl, -, -, -⟩ := h
    rfl
  | id :: rest, st, succ, warn, fat, st', s, w, f, h => by
    simp only [sync_loop] at h
    split at h
    · have hr := sync_loop_syncResults env rest _ _ _ _ _ _ _ _ h
      exact hr
    · exact absurd h (by simp)
    · split at h
      · exact absurd h (by simp)
      · split at h
        · have hr := sync_loop_syncResults env rest _ _ _ _ _ _ _ _ h
          exact hr
        · have hr := sync_loop_syncResults env rest _ _ _ _ _ _ _ _ h
          exact hr

/-! The claims. -/

/-- Claim C1.  The claim says every id in a batch passed to
`add_repos`/`delete_repos` is processed, with one outcome per input id, and
that a failure or no-op for an earlier id does not prevent later ids from
being attempted.  The code violates this: the already-installed no-op in
`add_repos` (api.py:152-154) and the not-installed no-op in `delete_repos`
(api.py:121-123) append one outcome and `break`, as do the
unknown-repo failure branches (api.py:155-158, 124-127).  Here each call on a
two-id batch returns a one-entry outcome list and never attempts the second
id, even though that id was addable (resp. deletable): `wrobel` is available
and not installed, yet after `add_repos` the state is unchanged, and
`wrobel-stable` is installed, yet after `delete_repos` it still is. -/
theorem c1_add_delete_early_exit :
    add_repos trivEnv stBase (.list ["wrobel-stable", "wrobel"]) =
      .ok (stBase, [true], true) ∧
    delete_repos trivEnv stBase (.list ["wrobel", "wrobel-stable"]) =
      .ok (stBase, [true], true) ∧
    is_repo stBase "wrobel" = true ∧
    is_installed stBase "wrobel" = false ∧
    is_installed stBase "wrobel-stable" = true := by decide

/-- Claim C2.  Writing a catalog and loading the written document into a
fresh catalog yields a catalog equal to the original under
`DbBase.__eq__` (same names, and for each name the same overlay), for every
catalog satisfying the construction invariant `wfCatalog`. -/
theorem c2_write_read_round_trip (db : DbBase) (origin : String)
    (hc : Except PyError (Option String)) (hwf : wfCatalog db) :
    dbEq (DbBase.read ⟨[]⟩ db.write origin hc).1 db = .ok true := by
  have h1 : (DbBase.read ⟨[]⟩ db.write origin hc).1 = db := by
    show (⟨mergeOverlays [] (db.overlays.map (·.2))⟩ : DbBase) = db
    rw [read_write_overlays db hwf]
  rw [h1]
  unfold dbEq
  refine dbEqGo_self db _ (fun k hk => ?_)
  have hmem := pySet_subset _ k hk
  rcases List.mem_append.mp hmem with hh | hh <;> exact hh

/-- Witness for C2 at the two-overlay catalog of the dbbase.py doctests. -/
theorem c2_write_read_round_trip_witness :
    wfCatalog ⟨[("wrobel", ovlWrobel), ("wrobel-stable", ovlStable)]⟩ ∧
    dbEq (DbBase.read ⟨[]⟩
        (DbBase.write ⟨[("wrobel", ovlWrobel), ("wrobel-stable", ovlStable)]⟩)
        "/var/lib/layman/installed.xml" (.ok none)).1
      ⟨[("wrobel", ovlWrobel), ("wrobel-stable", ovlStable)]⟩ = .ok true :=
  ⟨by decide, c2_write_read_round_trip _ _ _ (by decide)⟩

/-- Counterexample to claim C3 as stated.  The claim says the overall boolean
result of `sync` is true iff the fatal list is empty.  With output printing
disabled (`output_results=False`) and a failing sync adapter, the call returns
`True` while the fatal list it produced is nonempty: the `return False` sits
inside the `if output_results:` block (api.py:333-337). -/
theorem c3_fatals_with_true_result :
    sync syncFailEnv stBase (.list ["wrobel-stable"]) false =
      .ok ⟨{ stBase with syncResults := some ([], [],
          [("wrobel-stable",
            "Failed to sync overlay \"wrobel-stable\".\nError was: connection refused")]) },
        true, [], [],
        [("wrobel-stable",
          "Failed to sync overlay \"wrobel-stable\".\nError was: connection refused")]⟩ := by
  decide

/-- Claim C3, amended.  Whenever `sync` returns a boolean (rather than
raising), the result is true iff the fatal list is empty *or* output printing
was disabled; in particular warning entries never turn a returned true into
false, and with `output_results=False` the call returns true even when fatals
are nonempty. -/
theorem c3_result_iff_no_fatals_or_no_output (env : Env) (st : ApiState)
    (arg : ReposArg) (output_results : Bool) (out : SyncOutcome)
    (h : sync env st arg output_results = .ok out) :
    out.result = true ↔ (out.fatals = [] ∨ output_results = false) := by
  unfold sync at h
  split at h
  · exact absurd h (by simp)
  · split at h
    · exact absurd h (by simp)
    · rename_i st1 succ warn fat hloop
      split at h
      · rename_i hout
        split at h
        · exact absurd h (by simp)
        · split at h
          · rename_i fhd ftl
            rw [Except.ok.injEq] at h
            subst h
            simp [hout]
          · rw [Except.ok.injEq] at h
            subst h
            simp
      · rename_i hout
        rw [Except.ok.injEq] at h
        subst h
        simp [hout]

/-- Witness for the amended C3, at the run of `c3_fatals_with_true_result`'s
input: a returned true with a nonempty fatal list and output disabled. -/
theorem c3_result_iff_no_fatals_or_no_output_witness :
    (true = true ↔
      ([("wrobel-stable",
          "Failed to sync overlay \"wrobel-stable\".\nError was: connection refused")] =
        ([] : List (String × String)) ∨ false = false)) :=
  c3_result_iff_no_fatals_or_no_output syncFailEnv stBase
    (.list ["wrobel-stable"]) false
    ⟨{ stBase with syncResults := some ([], [],
        [("wrobel-stable",
          "Failed to sync overlay \"wrobel-stable\".\nError was: connection refused")]) },
      true, [], [],
      [("wrobel-stable",
        "Failed to sync overlay \"wrobel-stable\".\nError was: connection refused")]⟩
    (by decide)

/-- Claim C4.  The claim says that for an id not present in the installed
catalog `sync` records a fatal entry for that id and continues with the rest
of the batch.  Instead the failed installed-catalog lookup raises
`NameError` (see `unknownOverlayExceptionNew`), the
`except UnknownOverlayException` handler of api.py:275-277 cannot catch it,
and the whole call aborts: no fatal entry, no further ids — here the second,
perfectly syncable id `wrobel-stable` is never reached. -/
theorem c4_not_installed_raises_name_error :
    sync trivEnv stBase (.list ["missing-overlay", "wrobel-stable"]) true =
      .error (.nameError "message") ∧
    is_installed stBase "missing-overlay" = false ∧
    is_installed stBase "wrobel-stable" = true := by decide

/-- Claim C5.  The claim says that for an id installed but absent from the
available catalog `sync` records a non-fatal warning and still invokes the
sync adapter.  Instead the failed available-catalog lookup raises `NameError`
(see `unknownOverlayExceptionNew`), the `except UnknownOverlayException`
handler of api.py:280-284 cannot catch it, and the call aborts before any
warning is appended or the adapter is reached. -/
theorem c5_missing_available_raises_name_error :
    sync trivEnv stLocal (.list ["local-only"]) true =
      .error (.nameError "message") ∧
    is_installed stLocal "local-only" = true ∧
    is_repo stLocal "local-only" = false := by decide

/-- Claim C6.  The claim says `select` on an absent name always fails with
`UnknownOverlayError` carrying that name and never any other kind of error.
Instead constructing `UnknownOverlayException` raises
`NameError` (`message` is unbound in its `__init__`, dbbase.py:52), so the
failure is a `NameError`, not an `UnknownOverlayException`. -/
theorem c6_select_raises_name_error :
    DbBase.select ⟨[("wrobel-stable", ovlStable)]⟩ "missing-overlay" =
      .error (.nameError "message") ∧
    DbBase.select ⟨[("wrobel-stable", ovlStable)]⟩ "missing-overlay" ≠
      .error (.unknownOverlay "missing-overlay") := by decide

/-- Claim C7.  Loading a document that is not well-formed XML fails with
`BrokenOverlayCatalog` carrying the origin, the expat line, the column
(`offset + 1`) and the hint, and the overlays merged from a previously loaded
document remain in the catalog's mapping (the failing read leaves the mapping
exactly as it was). -/
theorem c7_broken_catalog_error (db : DbBase) (ovls : List Overlay)
    (origin1 origin2 : String) (hc : Except PyError (Option String))
    (lineno offset : Nat) (hint : Option String) :
    (db.read (.wellFormed ovls) origin1 hc).2 = none ∧
    DbBase.read (db.read (.wellFormed ovls) origin1 hc).1
        (.malformed lineno offset) origin2 (.ok hint) =
      ((db.read (.wellFormed ovls) origin1 hc).1,
        some (.brokenCatalog origin2 lineno (offset + 1) hint)) ∧
    ∀ o ∈ ovls,
      (pyDictGet (db.read (.wellFormed ovls) origin1 hc).1.overlays o.name).isSome := by
  refine ⟨rfl, rfl, ?_⟩
  intro o ho
  exact mergeOverlays_mem_isSome ovls db.overlays o ho

/-- Witness for C7: one good document followed by a document malformed at
line 3, offset 6, with a hint. -/
theorem c7_broken_catalog_error_witness :
    (DbBase.read ⟨[]⟩ (.wellFormed [ovlWrobel]) "global-overlays.xml"
        (.ok (some "hint"))).2 = none ∧
    DbBase.read (DbBase.read ⟨[]⟩ (.wellFormed [ovlWrobel]) "global-overlays.xml"
          (.ok (some "hint"))).1
        (.malformed 3 6) "broken.xml" (.ok (some "hint")) =
      ((DbBase.read ⟨[]⟩ (.wellFormed [ovlWrobel]) "global-overlays.xml"
          (.ok (some "hint"))).1,
        some (.brokenCatalog "broken.xml" 3 7 (some "hint"))) ∧
    (pyDictGet (DbBase.read ⟨[]⟩ (.wellFormed [ovlWrobel]) "global-overlays.xml"
        (.ok (some "hint"))).1.overlays ovlWrobel.name).isSome := by
  have h := c7_broken_catalog_error ⟨[]⟩ [ovlWrobel] "global-overlays.xml"
    "broken.xml" (.ok (some "hint")) 3 6 (some "hint")
  exact ⟨h.1, h.2.1, h.2.2 ovlWrobel (by decide)⟩

set_option synthInstance.maxSize 1024 in
/-- Claim C8.  The claim says a batch operation given an argument that is
neither a string nor a list records `UnsupportedInputError`, returns an empty
outcome and raises nothing past the caller.  Instead `_check_repo_type` is a
`@staticmethod` whose error branch reads the unbound name `self`
(api.py:105), so each of the five operations raises `NameError` past the
caller, records nothing and returns nothing. -/
theorem c8_unsupported_input_raises_name_error :
    add_repos trivEnv stBase .other = .error (.nameError "self") ∧
    delete_repos trivEnv stBase .other = .error (.nameError "self") ∧
    sync trivEnv stBase .other true = .error (.nameError "self") ∧
    get_all_info stBase .other = .error (.nameError "self") ∧
    get_info_str trivEnv stBase .other = .error (.nameError "self") := by decide

/-- Counterexample to claim C9 as stated.  The claim says that after every
`sync` call returns, the stored last-sync record equals the classification
produced by that call.  With output printing enabled and a failing adapter
the call returns false via the early `return False` of api.py:337, *before*
`self.sync_results = (success, warnings, fatals)` (api.py:339) runs: the
stored record still holds its initial value while the call produced a
nonempty fatal list. -/
theorem c9_sync_results_not_updated_on_fatal :
    sync syncFailEnv stBase (.list ["wrobel-stable"]) true =
      .ok ⟨stBase, false, [], [],
        [("wrobel-stable",
          "Failed to sync overlay \"wrobel-stable\".\nError was: connection refused")]⟩ ∧
    stBase.syncResults = none := by decide

/-- Claim C9, amended.  Whenever `sync` returns a boolean, the stored
last-sync record equals the call's `(success, warnings, fatals)`
classification iff the call did not take the early fatal-printing return:
when the fatal list is empty or output printing is disabled the record is
stored; when output printing is enabled and fatals are nonempty the call
returns false with the record still holding its previous value. -/
theorem c9_sync_results_stored_iff_no_early_return (env : Env) (st : ApiState)
    (arg : ReposArg) (output_results : Bool) (out : SyncOutcome)
    (h : sync env st arg output_results = .ok out) :
    (out.fatals = [] ∨ output_results = false →
      out.state.syncResults = some (out.success, out.warnings, out.fatals)) ∧
    (output_results = true ∧ out.fatals ≠ [] →
      out.state.syncResults = st.syncResults) := by
  unfold sync at h
  split at h
  · exact absurd h (by simp)
  · rename_i repos hrepos
    split at h
    · exact absurd h (by simp)
    · rename_i st1 succ warn fat hloop
      split at h
      · rename_i hout
        split at h
        · exact absurd h (by simp)
        · split at h
          · rename_i fhd ftl
            rw [Except.ok.injEq] at h
            subst h
            refine ⟨?_, ?_⟩
            · rintro (hfat | hfalse)
              · exact absurd hfat (by simp)
              · rw [hout] at hfalse
                exact absurd hfalse (by simp)
            · intro _
              exact sync_loop_syncResults env repos st [] [] [] _ _ _ _ hloop
          · rw [Except.ok.injEq] at h
            subst h
            refine ⟨fun _ => rfl, ?_⟩
            rintro ⟨-, hne⟩
            exact absurd rfl hne
      · rename_i hout
        rw [Except.ok.injEq] at h
        subst h
        refine ⟨fun _ => rfl, ?_⟩
        rintro ⟨hc1, -⟩
        exact absurd hc1 hout

/-- Witness for the amended C9, at the run of
`c9_sync_results_not_updated_on_fatal`'s input: output enabled, nonempty
fatals, record unchanged. -/
theorem c9_sync_results_stored_iff_no_early_return_witness :
    ([("wrobel-stable",
        "Failed to sync overlay \"wrobel-stable\".\nError was: connection refused")] =
        ([] : List (String × String)) ∨ true = false →
      stBase.syncResults = some ([], [],
        [("wrobel-stable",
          "Failed to sync overlay \"wrobel-stable\".\nError was: connection refused")])) ∧
    (true = true ∧
      [("wrobel-stable",
        "Failed to sync overlay \"wrobel-stable\".\nError was: connection refused")] ≠
        ([] : List (String × String)) →
      stBase.syncResults = stBase.syncResults) :=
  c9_sync_results_stored_iff_no_early_return syncFailEnv stBase
    (.list ["wrobel-stable"]) true
    ⟨stBase, false, [], [],
      [("wrobel-stable",
        "Failed to sync overlay \"wrobel-stable\".\nError was: connection refused")]⟩
    (by decide)

/-- Claim C10.  Calling any of the five batch operations with the single
string `x` produces exactly the same result — outcome and final state — as
calling it with the one-element list `[x]`: `_check_repo_type` normalizes
both to `[x]` and the rest of each operation is identical. -/
theorem c10_string_list_equiv (env : Env) (st : ApiState) (x : String)
    (output_results : Bool) :
    add_repos env st (.str x) = add_repos env st (.list [x]) ∧
    delete_repos env st (.str x) = delete_repos env st (.list [x]) ∧
    sync env st (.str x) output_results = sync env st (.list [x]) output_results ∧
    get_all_info st (.str x) = get_all_info st (.list [x]) ∧
    get_info_str env st (.str x) = get_info_str env st (.list [x]) :=
  ⟨rfl, rfl, rfl, rfl, rfl⟩

end Layman
